import Mathlib

/-!
Verification of the use-mcp connection orchestration hook (`src/react/useMcp.ts`,
compiled form `dist/react/index.js`) and its browser OAuth provider
(`src/auth/browser-provider.ts`, compiled form `dist/chunk-J6MO4N63.js`) together
with the OAuth callback completion handler (`src/auth/callback.ts`).

The development is a shallow embedding: JavaScript values become Lean values
(machine integers are modelled as `Int`/`Nat` with explicit two-complement
reduction where the source relies on 32-bit overflow), `localStorage` becomes an
association list from string keys to stored values, and the asynchronous
orchestration code becomes a fuel-indexed state-transition function over an
explicit record of the hook's refs and React state.  Modelling decisions:

* React's `setState`/`stateRef` pair is modelled as a single synchronously
  updated field (`useMcp` mirrors `state` into `stateRef` via an effect; we model
  the common-sense synchronous semantics).
* Fire-and-forget `connect()` invocations (the restart performed after a
  successful authorization) are run to completion at the point of invocation;
  this is the sequential interleaving of the single-threaded event loop.
* `console.*` output, popup handling and timer identities are not modelled;
  the armed/cleared status of the auth timeout is kept as a Boolean.
* Log messages built from template literals are reproduced by string
  concatenation; `JSON.stringify` formatting of extra console arguments and
  `Date.now()` timestamps inside the orchestrator are elided (timestamp 0).
-/

set_option linter.unusedVariables false

namespace UseMcp

/-- Models JavaScript `String.prototype.startsWith`. -/
def jsStartsWith (s pattern : String) : Bool :=
  pattern.data.isPrefixOf s.data

/-- Models JavaScript `String.prototype.includes`. -/
def jsIncludes (s sub : String) : Bool :=
  decide (sub.data <:+: s.data)

/-- Models JavaScript `Array.prototype.slice(-n)` (for `n > 0`): the last
`min n l.length` elements of `l`, in order. -/
def jsSliceLast (l : List α) (n : Nat) : List α :=
  l.drop (l.length - n)

/-! ## Diagnostic log (`addLog` in `useMcp.ts`) -/

/-- The four log severities of `UseMcpResult.log`. -/
inductive LogLevel
  | debug | info | warn | error
deriving DecidableEq, Repr

/-- One entry of the hook's log feed: `{ level, message, timestamp }`. -/
structure LogEntry where
  level : LogLevel
  message : String
  timestamp : Nat
deriving DecidableEq, Repr

/-- The `setLog` updater inside `addLog`:
`setLog((prevLog) => [...prevLog.slice(-100), { level, message, timestamp }])`. -/
def addLogEntry (prevLog : List LogEntry) (e : LogEntry) : List LogEntry :=
  jsSliceLast prevLog 100 ++ [e]

/-- Appending a whole sequence of entries to an initial log, one `addLog` at a
time. -/
def appendLogAll (init : List LogEntry) (es : List LogEntry) : List LogEntry :=
  es.foldl addLogEntry init

/-! ## Browser OAuth client provider (`src/auth/browser-provider.ts`) -/

/-- The `providerOptions` block persisted inside a correlation record, enough to
reconstruct an equivalent `BrowserOAuthClientProvider` in the callback context. -/
structure ProviderOptions where
  serverUrl : String
  storageKeyPfx : String
  clientName : String
  clientUri : String
  callbackUrl : String
deriving DecidableEq, Repr

/-- The `StoredState` correlation record persisted under
`{storageKeyPrefix}:state_{state}` by `redirectToAuthorization`.  `expiry` is an
epoch-millisecond timestamp; `0` models a missing or falsy `expiry` field (the
callback checks `!storedStateData.expiry`). `providerOptions` is optional because
the callback checks `!storedStateData.providerOptions`. -/
structure StoredState where
  serverUrlHash : String
  expiry : Nat
  providerOptions : Option ProviderOptions
deriving DecidableEq, Repr

/-- A persisted `localStorage` value.  Raw strings (`code_verifier`,
`last_auth_url`) are `str`; a `JSON.stringify`-ed correlation record is
`stateRec`; `corrupt` models text that `JSON.parse` rejects. -/
inductive StoredVal
  | str (s : String)
  | stateRec (d : StoredState)
  | corrupt (s : String)
deriving DecidableEq, Repr

/-- `JSON.parse` of a stored value, viewed as a correlation record.  Parsing a
non-record value either throws (`corrupt`) or yields an object without the
record's fields (`str`); both are `none` here. -/
def parseStoredState : StoredVal → Option StoredState
  | .stateRec d => some d
  | _ => none

/-- `localStorage` as a key-ordered association list (keys are unique). -/
abbrev Storage := List (String × StoredVal)

/-- `localStorage.getItem`. -/
def getItem (s : Storage) (k : String) : Option StoredVal :=
  (List.find? (fun kv => kv.1 == k) s).map (·.2)

/-- `localStorage.setItem`: overwrite in place, or append a fresh key. -/
def setItem (s : Storage) (k : String) (v : StoredVal) : Storage :=
  if List.any s (fun kv => kv.1 == k) then
    List.map (fun kv => if kv.1 == k then (k, v) else kv) s
  else s ++ [(k, v)]

/-- `localStorage.removeItem`. -/
def removeItem (s : Storage) (k : String) : Storage :=
  List.filter (fun kv => !(kv.1 == k)) s

/-- JavaScript `ToInt32`: reduce an integer to the signed 32-bit range, as
performed by `hash & hash` and by the shift in `hashString`. -/
def toInt32 (n : Int) : Int :=
  let m := n % 4294967296
  if m < 2147483648 then m else m - 4294967296

/-- One step of `hashString`:
`hash = (hash << 5) - hash + char; hash = hash & hash;` where `hash` is already
a 32-bit value and `<< 5` is a 32-bit shift. -/
def hashStep (hash : Int) (char : Nat) : Int :=
  toInt32 (toInt32 (hash * 32) - hash + char)

/-- `BrowserOAuthClientProvider.hashString`: the deterministic, low-collision
hash of the server identity, rendered as lowercase hex via
`Math.abs(hash).toString(16)`.  (`charCodeAt` UTF-16 code units coincide with
code points on the URLs this library hashes.) -/
def hashString (str : String) : String :=
  let h := str.data.foldl (fun h c => hashStep h c.toNat) 0
  String.mk (Nat.toDigits 16 h.natAbs)

/-- The provider instance: `serverUrlHash` is computed from `serverUrl` in the
constructor; the remaining fields echo the constructor options. -/
structure BrowserOAuthClientProvider where
  serverUrl : String
  storageKeyPfx : String
  serverUrlHash : String
  clientName : String
  clientUri : String
  callbackUrl : String
deriving DecidableEq, Repr

/-- Constructor options (`options` argument, all optional). -/
structure ProviderConfig where
  storageKeyPfx : Option String := none
  clientName : Option String := none
  clientUri : Option String := none
  callbackUrl : Option String := none
deriving DecidableEq, Repr

/-- The `BrowserOAuthClientProvider` constructor.  The `window`-dependent
defaults for `clientUri`/`callbackUrl` are taken in their no-`window` form; no
claim depends on them. -/
def mkProvider (serverUrl : String) (o : ProviderConfig) : BrowserOAuthClientProvider :=
  { serverUrl := serverUrl
    storageKeyPfx := o.storageKeyPfx.getD "mcp:auth"
    serverUrlHash := hashString serverUrl
    clientName := o.clientName.getD "MCP Browser Client"
    clientUri := o.clientUri.getD ""
    callbackUrl := o.callbackUrl.getD "/oauth/callback" }

/-- `getKey(keySuffix)`: the namespaced credential key
`{storageKeyPrefix}_{serverUrlHash}_{keySuffix}`. -/
def BrowserOAuthClientProvider.getKey (p : BrowserOAuthClientProvider)
    (keySuffix : String) : String :=
  p.storageKeyPfx ++ "_" ++ p.serverUrlHash ++ "_" ++ keySuffix

/-- `redirectToAuthorization`: persist the correlation record (keyed by the
fresh random `state` token, with a 10-minute expiry) and the last-attempted
authorization URL.  The popup-opening attempt only logs and is elided; the
random `crypto.randomUUID()` token and the current time are parameters. -/
def redirectToAuthorization (p : BrowserOAuthClientProvider) (state : String)
    (authUrlString : String) (now : Nat) (s : Storage) : Storage :=
  let stateKey := p.storageKeyPfx ++ ":state_" ++ state
  let stateData : StoredState :=
    { serverUrlHash := p.serverUrlHash
      expiry := now + 1000 * 60 * 10
      providerOptions := some
        { serverUrl := p.serverUrl
          storageKeyPfx := p.storageKeyPfx
          clientName := p.clientName
          clientUri := p.clientUri
          callbackUrl := p.callbackUrl } }
  let s := setItem s stateKey (.stateRec stateData)
  setItem s (p.getKey "last_auth_url") (.str authUrlString)

/-- The removal test applied to one storage entry by `clearStorage`: every key
beginning with `{storageKeyPrefix}_{serverUrlHash}_`, plus every
`{storageKeyPrefix}:state_` record whose embedded `serverUrlHash` matches. -/
def clearTest (p : BrowserOAuthClientProvider) (kv : String × StoredVal) : Option String :=
  if jsStartsWith kv.1 (p.storageKeyPfx ++ "_" ++ p.serverUrlHash ++ "_") then
    some kv.1
  else if jsStartsWith kv.1 (p.storageKeyPfx ++ ":state_") then
    match parseStoredState kv.2 with
    | some d => if d.serverUrlHash == p.serverUrlHash then some kv.1 else none
    | none => none
  else none

/-- `clearStorage()`: scan all keys, collect matches, dedupe (`new Set`),
remove each collected key, and return the removed-entry count.  (`localStorage`
keys are unique, so the dedup direction is immaterial.) -/
def BrowserOAuthClientProvider.clearStorage (p : BrowserOAuthClientProvider)
    (s : Storage) : Nat × Storage :=
  let keysToRemove := s.filterMap (clearTest p)
  let uniqueKeysToRemove := keysToRemove.dedup
  (uniqueKeysToRemove.length, uniqueKeysToRemove.foldl removeItem s)

/-! ## Callback completion handler (`src/auth/callback.ts`, `onMcpAuthorization`) -/

/-- The query parameters parsed from the callback address. -/
structure CallbackInput where
  code : Option String
  state : Option String
  errorParam : Option String
  errorDescription : Option String
deriving DecidableEq, Repr

/-- Result of the SDK `auth(provider, { serverUrl, authorizationCode })` call as
observed by the callback handler: the string `"AUTHORIZED"`, an exception, or
an unexpected status string. -/
inductive ExchangeOutcome
  | authorized
  | thrown (message : String)
  | otherStatus (s : String)
deriving DecidableEq, Repr

/-- What the callback run signals: `success` posts `{success: true}` to the
opener; `failure msg` posts `{success: false, error: msg}` (or renders the
diagnostic page). -/
inductive CallbackOutcome
  | success
  | failure (message : String)
deriving DecidableEq, Repr

/-- The cleanup performed in the `catch` block: remove the correlation record
(when a `state` was present) and, when a provider was already reconstructed,
its leftover `code_verifier` and `last_auth_url` keys. -/
def callbackCleanup (stateKey : Option String)
    (provider : Option BrowserOAuthClientProvider) (s : Storage) : Storage :=
  let s := match stateKey with
    | some k => removeItem s k
    | none => s
  match provider with
  | some p => removeItem (removeItem s (p.getKey "code_verifier")) (p.getKey "last_auth_url")
  | none => s

/-- `onMcpAuthorization()`: validate the callback parameters, resolve the
correlation record (under the literal key `mcp:auth:state_{state}`), reject
expired records, reconstruct a provider from the embedded options and run the
code exchange.  `exchange` is the oracle for the opaque SDK `auth()` call (it
may write tokens through the provider, hence the storage argument and result);
`now` is `Date.now()`. -/
def onMcpAuthorization
    (exchange : ProviderOptions → String → Storage → ExchangeOutcome × Storage)
    (now : Nat) (q : CallbackInput) (s0 : Storage) : CallbackOutcome × Storage :=
  let stateKey := q.state.map (fun st => "mcp:auth:state_" ++ st)
  match q.errorParam with
  | some e =>
      (.failure ("OAuth error: " ++ e ++ " - " ++
        (q.errorDescription.getD "No description provided.")),
       callbackCleanup stateKey none s0)
  | none =>
  match q.code with
  | none =>
      (.failure "Authorization code not found in callback query parameters.",
       callbackCleanup stateKey none s0)
  | some code =>
  match q.state with
  | none =>
      (.failure "State parameter not found or invalid in callback query parameters.",
       callbackCleanup stateKey none s0)
  | some st =>
  let skey := "mcp:auth:state_" ++ st
  match getItem s0 skey with
  | none =>
      (.failure ("Invalid or expired state parameter \"" ++ st ++
        "\". No matching state found in storage."),
       callbackCleanup stateKey none s0)
  | some v =>
  match parseStoredState v with
  | none =>
      (.failure "Failed to parse stored OAuth state.",
       callbackCleanup stateKey none s0)
  | some d =>
  if d.expiry = 0 ∨ d.expiry < now then
    -- the handler removes the expired record before throwing; the catch block
    -- removes it again (a no-op)
    (.failure "OAuth state has expired. Please try initiating authentication again.",
     callbackCleanup stateKey none (removeItem s0 skey))
  else
  match d.providerOptions with
  | none =>
      (.failure "Stored state is missing required provider options.",
       callbackCleanup stateKey none s0)
  | some po =>
  let provider := mkProvider po.serverUrl
    { storageKeyPfx := some po.storageKeyPfx
      clientName := some po.clientName
      clientUri := some po.clientUri
      callbackUrl := some po.callbackUrl }
  match exchange po code s0 with
  | (.authorized, s1) =>
      -- notify the opener (or navigate), then remove the consumed record
      (.success, removeItem s1 skey)
  | (.thrown msg, s1) =>
      (.failure msg, callbackCleanup stateKey (some provider) s1)
  | (.otherStatus os, s1) =>
      (.failure ("Unexpected result from authentication library: " ++ os),
       callbackCleanup stateKey (some provider) s1)

/-! ## Connection orchestrator (`src/react/useMcp.ts`) -/

/-- The `UseMcpResult.state` enum. -/
inductive ConnectionState
  | discovering | authenticating | connecting | loading | ready | failed
deriving DecidableEq, Repr

/-- The state name as interpolated into error messages. -/
def ConnectionState.jsName : ConnectionState → String
  | .discovering => "discovering"
  | .authenticating => "authenticating"
  | .connecting => "connecting"
  | .loading => "loading"
  | .ready => "ready"
  | .failed => "failed"

/-- The two transport variants tried by the negotiator. -/
inductive TransportType
  | http | sse
deriving DecidableEq, Repr

/-- `transportType.toUpperCase()` as used in log and error messages. -/
def TransportType.upperName : TransportType → String
  | .http => "HTTP"
  | .sse => "SSE"

/-- A JavaScript error as observed by the orchestrator: its `.message`, plus
whether it is an `instanceof UnauthorizedError`. -/
structure JsError where
  message : String
  isUnauthorizedFlag : Bool := false
deriving DecidableEq, Repr

/-- `errorMessage.includes('404') || errorMessage.includes('Not Found')`. -/
def is404 (m : String) : Bool :=
  jsIncludes m "404" || jsIncludes m "Not Found"

/-- `errorMessage.includes('405') || errorMessage.includes('Method Not Allowed')`. -/
def is405 (m : String) : Bool :=
  jsIncludes m "405" || jsIncludes m "Method Not Allowed"

/-- The cross-origin-like fetch failures recognised for transport fallback. -/
def isLikelyCors (m : String) : Bool :=
  m == "Failed to fetch" || m == "NetworkError when attempting to fetch resource." ||
    m == "Load failed"

/-- `errorInstance instanceof UnauthorizedError || message.includes('Unauthorized')
|| message.includes('401')`. -/
def isUnauthorizedErr (e : JsError) : Bool :=
  e.isUnauthorizedFlag || jsIncludes e.message "Unauthorized" || jsIncludes e.message "401"

/-- The environment's answer to one transport attempt: the transport
constructor throws (`createError`), `client.connect` rejects (`connectError`),
or the handshake succeeds and the three catalog requests settle (`connected`,
with `none` marking a rejected catalog request). -/
inductive AttemptOutcome
  | createError (e : JsError)
  | connectError (e : JsError)
  | connected (toolsR resourcesR promptsR : Option (List String))
deriving DecidableEq, Repr

/-- Whether an outcome is a transport-constructor throw. -/
def AttemptOutcome.isCreateError : AttemptOutcome → Bool
  | .createError _ => true
  | _ => false

/-- The environment's answer to one SDK `auth()` call. -/
inductive AuthOutcome
  | authorized
  | redirect
  | thrown (e : JsError)
deriving DecidableEq, Repr

/-- The external world of one orchestrator run: attempt outcomes and auth
outcomes are consumed in order; `lastAuthUrl` is what
`getLastAttemptedAuthUrl()` would read from storage. -/
structure Env where
  attemptResults : List AttemptOutcome
  authResults : List AuthOutcome
  lastAuthUrl : Option String := none
deriving DecidableEq, Repr

/-- Pop the next transport-attempt outcome. -/
def Env.takeAttempt (env : Env) : AttemptOutcome × Env :=
  (env.attemptResults.headD (.connectError { message := "" }),
   { env with attemptResults := env.attemptResults.tail })

/-- Pop the next auth-call outcome. -/
def Env.takeAuth (env : Env) : AuthOutcome × Env :=
  (env.authResults.headD (.thrown { message := "" }),
   { env with authResults := env.authResults.tail })

/-- Observable interaction events: a transport connection attempt
(`client.connect(transport)`), an SDK `auth()` invocation, and a protocol
request issued to the server. -/
inductive Event
  | attempt (t : TransportType)
  | authCall
  | request (method : String)
deriving DecidableEq, Repr

/-- The hook instance: React state (`state` … `log`) plus the refs.  `state`
stands for the synchronised `state`/`stateRef` pair; `connectingFlag` is
`connectingRef`, `connectAttempt` is `connectAttemptRef`, `authTimeoutArmed`
tracks `authTimeoutRef`, `transport`/`successfulTransport` mirror
`transportRef`/`successfulTransportRef`, and `hasAuthProvider`/`hasClient` the
lazily created singletons. -/
structure McpState where
  state : ConnectionState
  tools : List String
  resources : List String
  prompts : List String
  error : Option String
  authUrl : Option String
  log : List LogEntry
  connectingFlag : Bool
  isMounted : Bool
  connectAttempt : Nat
  authTimeoutArmed : Bool
  transport : Option TransportType
  successfulTransport : Option TransportType
  hasAuthProvider : Bool
  hasClient : Bool
deriving DecidableEq, Repr

/-- `addLog`: always writes to the console (not modelled); appends to the log
state only while mounted. -/
def McpState.addLog (st : McpState) (level : LogLevel) (message : String) : McpState :=
  if st.isMounted then
    { st with log := addLogEntry st.log { level := level, message := message, timestamp := 0 } }
  else st

/-- `failConnection(errorMessage)`: log, set `failed` + error, surface the
manual auth URL when the provider has one, and clear the in-progress flag. -/
def failConnection (env : Env) (st : McpState) (errorMessage : String) : McpState :=
  let st := st.addLog .error errorMessage
  let st :=
    if st.isMounted then
      let st := { st with state := .failed, error := some errorMessage }
      match (if st.hasAuthProvider then env.lastAuthUrl else none) with
      | some u =>
          ({ st with authUrl := some u }).addLog .info
            "Manual authentication URL may be available."
      | none => st
    else st
  { st with connectingFlag := false }

/-- `'success' | 'fallback' | 'auth_redirect' | 'failed'`. -/
inductive TryResult
  | success | fallback | authRedirect | failed
deriving DecidableEq, Repr

/-- `tryConnectWithTransport(transportType)`: create the transport, connect the
client, and on failure classify the error (soft-retryable fallback /
unauthorized auth flow / other).  `restart` is the captured `connect` closure
invoked fire-and-forget after a successful authorization; the returned event
list is everything emitted during this call (restart included). -/
def tryConnectWithTransport (url : String)
    (restart : Env → McpState → Env × McpState × List Event)
    (transportType : TransportType) (env : Env) (st : McpState) :
    TryResult × Env × McpState × List Event :=
  let st := st.addLog .info
    ("Attempting connection with " ++ transportType.upperName ++ " transport...")
  let st := if st.state ≠ .authenticating then { st with state := .connecting } else st
  let (outcome, env) := env.takeAttempt
  match outcome with
  | .createError e =>
      -- the previous transport was closed and nulled before the constructor threw
      let st := { st with transport := none }
      let st := failConnection env st
        ("Failed to create " ++ transportType.upperName ++ " transport: " ++ e.message)
      (.failed, env, st, [])
  | .connected toolsR resourcesR promptsR =>
      -- previous transport closed, new one assigned, handlers attached
      let st := { st with transport := some transportType }
      let st := st.addLog .debug (transportType.upperName ++ " transport created.")
      let st := st.addLog .info ("Connecting client via " ++ transportType.upperName ++ "...")
      let st := st.addLog .info
        ("Client connected via " ++ transportType.upperName ++
          ". Loading tools, resources, and prompts...")
      let st := { st with successfulTransport := some transportType, state := .loading }
      let events := [Event.attempt transportType,
        Event.request "tools/list", Event.request "resources/list", Event.request "prompts/list"]
      if st.isMounted then
        let st := match toolsR with
          | some xs => ({ st with tools := xs }).addLog .info "Loaded tools."
          | none => ({ st with tools := [] }).addLog .warn "Failed to load tools."
        let st := match resourcesR with
          | some xs => ({ st with resources := xs }).addLog .info "Loaded resources."
          | none => ({ st with resources := [] }).addLog .warn "Failed to load resources."
        let st := match promptsR with
          | some xs => ({ st with prompts := xs }).addLog .info "Loaded prompts."
          | none => ({ st with prompts := [] }).addLog .warn "Failed to load prompts."
        let st := { st with state := .ready, connectAttempt := 0 }
        (.success, env, st, events)
      else
        (.failed, env, st, events)
  | .connectError e =>
      let st := { st with transport := some transportType }
      let st := st.addLog .debug (transportType.upperName ++ " transport created.")
      let st := st.addLog .info ("Connecting client via " ++ transportType.upperName ++ "...")
      let st := st.addLog .debug
        ("Client connect error via " ++ transportType.upperName ++ ":")
      let errorMessage := e.message
      if transportType = .http ∧
          (is404 errorMessage ∨ is405 errorMessage ∨ isLikelyCors errorMessage) then
        let st := st.addLog .warn "HTTP transport failed. Will attempt fallback to SSE."
        (.fallback, env, st, [Event.attempt transportType])
      else if isUnauthorizedErr e then
        let st := st.addLog .info "Authentication required. Initiating SDK auth flow..."
        let st := if st.state ≠ .authenticating then
            { st with state := .authenticating, authTimeoutArmed := true }
          else st
        let (authResult, env) := env.takeAuth
        match authResult with
        | .authorized =>
            if st.isMounted then
              let st := st.addLog .info
                "Authentication successful via existing token or refresh. Re-attempting connection..."
              let st := { st with authTimeoutArmed := false, connectingFlag := false }
              let (env, st, restartEvents) := restart env st
              (.failed, env, st, [Event.attempt transportType, Event.authCall] ++ restartEvents)
            else
              (.failed, env, st, [Event.attempt transportType, Event.authCall])
        | .redirect =>
            let st := st.addLog .info "Redirecting for authentication. Waiting for callback..."
            (.authRedirect, env, st, [Event.attempt transportType, Event.authCall])
        | .thrown sdkAuthError =>
            if st.isMounted then
              let st := { st with authTimeoutArmed := false }
              let st := st.addLog .error "Auth flow failed:"
              if transportType = .http then
                (.fallback, env, st, [Event.attempt transportType, Event.authCall])
              else
                let st := failConnection env st
                  ("Failed to initiate authentication: " ++ sdkAuthError.message)
                (.failed, env, st, [Event.attempt transportType, Event.authCall])
            else
              (.failed, env, st, [Event.attempt transportType, Event.authCall])
      else if transportType = .http then
        let st := st.addLog .warn
          ("HTTP transport failed: " ++ errorMessage ++ ". Will attempt fallback to SSE.")
        (.fallback, env, st, [Event.attempt transportType])
      else
        let st := failConnection env st
          ("Failed to connect via " ++ transportType.upperName ++ ": " ++ errorMessage)
        (.failed, env, st, [Event.attempt transportType])

/-- The state reset performed at the head of `connect()`: set the in-progress
flag, bump the attempt counter, clear error/authUrl/successful transport, go to
`discovering`, and lazily create the provider and client singletons. -/
def resetForConnect (url : String) (st : McpState) : McpState :=
  let st := { st with
    connectingFlag := true
    connectAttempt := st.connectAttempt + 1
    error := none
    authUrl := none
    successfulTransport := none
    state := ConnectionState.discovering }
  let st := st.addLog .info
    ("Connecting attempt #" ++ toString st.connectAttempt ++ " to " ++ url ++ "...")
  let st := if ¬ st.hasAuthProvider then
      ({ st with hasAuthProvider := true }).addLog .debug
        "BrowserOAuthClientProvider initialized in connect."
    else st
  if ¬ st.hasClient then
    ({ st with hasClient := true }).addLog .debug "MCP Client initialized in connect."
  else st

/-- `connect()`: the whole connect cycle.  `fuel` bounds the depth of nested
restarts (each recursive `connect()` invocation consumes one unit); with fuel 0
a restart is a no-op. -/
def connect (fuel : Nat) (url : String) (env : Env) (st : McpState) :
    Env × McpState × List Event :=
  match fuel with
  | 0 => (env, st, [])
  | fuel + 1 =>
    if st.connectingFlag then
      (env, st.addLog .debug "Connection attempt already in progress.", [])
    else if ¬ st.isMounted then
      (env, st.addLog .debug "Connect called after unmount, aborting.", [])
    else
      let st := resetForConnect url st
      let (httpResult, env, st, httpEvents) :=
        tryConnectWithTransport url (connect fuel url) .http env st
      let (finalStatus, env, st, events) :=
        if httpResult = .fallback ∧ st.isMounted ∧ st.state ≠ .authenticating then
          let (sseResult, env, st, sseEvents) :=
            tryConnectWithTransport url (connect fuel url) .sse env st
          (sseResult, env, st, httpEvents ++ sseEvents)
        else (httpResult, env, st, httpEvents)
      let (finalStatus, st) :=
        if finalStatus = .fallback then
          (TryResult.failed, failConnection env st "All transport methods failed")
        else (finalStatus, st)
      let st := if finalStatus = .success ∨ finalStatus = .failed then
          { st with connectingFlag := false }
        else st
      (env, st.addLog .debug "Connection sequence finished.", events)

/-! ## Request operations -/

/-- The not-ready guard message shared by all request operations:
`MCP client is not ready (current state: X). Cannot <operation>.` -/
def notReadyMessage (st : McpState) (operation : String) : String :=
  "MCP client is not ready (current state: " ++ st.state.jsName ++ "). " ++ operation

/-- `callTool(name, args)`.  The result of the one `client.request` is supplied
as `reqResult` (the tool result payload is kept opaque as a string); `fuel` and
`env` feed the reconnect that the unauthorized re-authentication path may
trigger.  `Except.error` models a rejection; `.ok none` models `return void 0`. -/
def callTool (fuel : Nat) (url : String) (name : String)
    (reqResult : Except JsError String) (env : Env) (st : McpState) :
    Except JsError (Option String) × Env × McpState × List Event :=
  if st.state ≠ .ready ∨ ¬ st.hasClient then
    (.error { message := notReadyMessage st ("Cannot call tool \"" ++ name ++ "\".") },
     env, st, [])
  else
    let st := st.addLog .info ("Calling tool: " ++ name)
    match reqResult with
    | .ok result =>
        (.ok (some result), env, st.addLog .info ("Tool \"" ++ name ++ "\" call successful:"),
         [Event.request "tools/call"])
    | .error err =>
        let st := st.addLog .error ("Error calling tool \"" ++ name ++ "\": " ++ err.message)
        if isUnauthorizedErr err then
          let st := st.addLog .warn "Tool call unauthorized, attempting re-authentication..."
          let st := { st with state := .authenticating, authTimeoutArmed := true }
          let (authResult, env) := env.takeAuth
          match authResult with
          | .authorized =>
              if st.isMounted then
                let st := st.addLog .info
                  "Re-authentication successful. Retrying tool call is recommended, or reconnecting."
                let st := { st with authTimeoutArmed := false, connectingFlag := false }
                let (env, st, restartEvents) := connect fuel url env st
                if st.state ≠ .authenticating then
                  (.error err, env, st, [Event.request "tools/call", Event.authCall] ++ restartEvents)
                else
                  (.ok none, env, st, [Event.request "tools/call", Event.authCall] ++ restartEvents)
              else
                (.ok none, env, st, [Event.request "tools/call", Event.authCall])
          | .redirect =>
              let st := st.addLog .info "Redirecting for re-authentication for tool call."
              if st.state ≠ .authenticating then
                (.error err, env, st, [Event.request "tools/call", Event.authCall])
              else
                (.ok none, env, st, [Event.request "tools/call", Event.authCall])
          | .thrown sdkAuthError =>
              if st.isMounted then
                let st := { st with authTimeoutArmed := false }
                let st := failConnection env st
                  ("Re-authentication failed: " ++ sdkAuthError.message)
                if st.state ≠ .authenticating then
                  (.error err, env, st, [Event.request "tools/call", Event.authCall])
                else
                  (.ok none, env, st, [Event.request "tools/call", Event.authCall])
              else
                (.ok none, env, st, [Event.request "tools/call", Event.authCall])
        else
          if st.state ≠ .authenticating then
            (.error err, env, st, [Event.request "tools/call"])
          else
            (.ok none, env, st, [Event.request "tools/call"])

/-- `listResources(cursor)`: guard, one request, log-and-rethrow on error. -/
def listResources (cursor : Option String) (reqResult : Except JsError (List String))
    (st : McpState) : Except JsError (List String) × McpState × List Event :=
  if st.state ≠ .ready ∨ ¬ st.hasClient then
    (.error { message := notReadyMessage st "Cannot list resources." }, st, [])
  else
    let st := st.addLog .info "Listing resources"
    match reqResult with
    | .ok result =>
        (.ok result, st.addLog .info "Listed resources.", [Event.request "resources/list"])
    | .error err =>
        (.error err, st.addLog .error ("Error listing resources: " ++ err.message),
         [Event.request "resources/list"])

/-- `readResource(uri)`: guard, one request, log-and-rethrow on error. -/
def readResource (uri : String) (reqResult : Except JsError String)
    (st : McpState) : Except JsError String × McpState × List Event :=
  if st.state ≠ .ready ∨ ¬ st.hasClient then
    (.error { message := notReadyMessage st ("Cannot read resource \"" ++ uri ++ "\".") },
     st, [])
  else
    let st := st.addLog .info ("Reading resource: " ++ uri)
    match reqResult with
    | .ok result =>
        (.ok result, st.addLog .info ("Resource \"" ++ uri ++ "\" read successfully."),
         [Event.request "resources/read"])
    | .error err =>
        (.error err,
         st.addLog .error ("Error reading resource \"" ++ uri ++ "\": " ++ err.message),
         [Event.request "resources/read"])

/-- `listPrompts(cursor)`: guard, one request, log-and-rethrow on error. -/
def listPrompts (cursor : Option String) (reqResult : Except JsError (List String))
    (st : McpState) : Except JsError (List String) × McpState × List Event :=
  if st.state ≠ .ready ∨ ¬ st.hasClient then
    (.error { message := notReadyMessage st "Cannot list prompts." }, st, [])
  else
    let st := st.addLog .info "Listing prompts"
    match reqResult with
    | .ok result =>
        (.ok result, st.addLog .info "Listed prompts.", [Event.request "prompts/list"])
    | .error err =>
        (.error err, st.addLog .error ("Error listing prompts: " ++ err.message),
         [Event.request "prompts/list"])

/-- `getPrompt(name)`: guard, one request, log-and-rethrow on error. -/
def getPrompt (name : String) (reqResult : Except JsError String)
    (st : McpState) : Except JsError String × McpState × List Event :=
  if st.state ≠ .ready ∨ ¬ st.hasClient then
    (.error { message := notReadyMessage st ("Cannot get prompt \"" ++ name ++ "\".") },
     st, [])
  else
    let st := st.addLog .info ("Getting prompt: " ++ name)
    match reqResult with
    | .ok result =>
        (.ok result, st.addLog .info ("Prompt \"" ++ name ++ "\" retrieved successfully."),
         [Event.request "prompts/get"])
    | .error err =>
        (.error err,
         st.addLog .error ("Error getting prompt \"" ++ name ++ "\": " ++ err.message),
         [Event.request "prompts/get"])

/-! ## Claim-support definitions -/

/-- The entry `kv` is one of `p`'s namespaced credential keys:
`{prefix}_{hash}_{suffix}`. -/
def credKeyOf (p : BrowserOAuthClientProvider) (kv : String × StoredVal) : Prop :=
  ∃ keySuffix, kv.1 = p.storageKeyPfx ++ "_" ++ p.serverUrlHash ++ "_" ++ keySuffix

/-- The entry `kv` is one of `p`'s correlation records: key
`{prefix}:state_{token}`, value a parsed record carrying `p`'s hash. -/
def stateKeyOf (p : BrowserOAuthClientProvider) (kv : String × StoredVal) : Prop :=
  ∃ token d, kv.1 = p.storageKeyPfx ++ ":state_" ++ token ∧
    kv.2 = StoredVal.stateRec d ∧ d.serverUrlHash = p.serverUrlHash

/-- The entry belongs to server identity `p` (credential key or correlation
record). -/
def ownedBy (p : BrowserOAuthClientProvider) (kv : String × StoredVal) : Prop :=
  credKeyOf p kv ∨ stateKeyOf p kv

/-- A synthetic log entry used by the log-cap counterexample. -/
def mkLogEntry (i : Nat) : LogEntry :=
  { level := .info, message := "", timestamp := i }

/-- 101 distinct log entries. -/
def logEntries101 : List LogEntry :=
  (List.range 101).map mkLogEntry

/-- The freshly mounted hook state: `discovering`, empty catalogs, no flags. -/
def initialState : McpState :=
  { state := .discovering, tools := [], resources := [], prompts := [], error := none,
    authUrl := none, log := [], connectingFlag := false, isMounted := true,
    connectAttempt := 0, authTimeoutArmed := false, transport := none,
    successfulTransport := none, hasAuthProvider := false, hasClient := false }

/-- A connected hook state (`ready`, client and provider present). -/
def readyState : McpState :=
  { initialState with
    state := .ready
    hasAuthProvider := true
    hasClient := true
    transport := some .http
    successfulTransport := some .http }

/-- A 404 response on the primary transport. -/
def err404 : JsError := { message := "Error POSTing to endpoint (HTTP 404)" }

/-- A generic non-auth, non-soft connection error. -/
def errStream : JsError := { message := "SSE stream disconnected" }

/-- An unauthorized response. -/
def errUnauthorized : JsError := { message := "401 Unauthorized" }

/-- Environment for the fallback scenario: HTTP 404, then the SSE attempt also
fails. -/
def envFallbackFail : Env :=
  { attemptResults := [.connectError err404, .connectError errStream], authResults := [] }

/-- Environment for the auth-restart scenario: HTTP 401, auth reports
authorized, restarted HTTP attempt succeeds. -/
def envAuthRestart : Env :=
  { attemptResults := [.connectError errUnauthorized, .connected (some ["t"]) (some []) (some [])]
    authResults := [.authorized] }

/-- Environment whose next auth call reports `REDIRECT`. -/
def envRedirect : Env :=
  { attemptResults := [], authResults := [.redirect] }

/-- The example server identities used by concrete storage witnesses. -/
def providerA : BrowserOAuthClientProvider := mkProvider "https://a.example/mcp" {}

/-- A second server identity sharing the same storage. -/
def providerB : BrowserOAuthClientProvider := mkProvider "https://b.example/mcp" {}

/-- The same server identity as `providerA` but with a non-default storage key
prefix `custom`. -/
def providerCustom : BrowserOAuthClientProvider :=
  mkProvider "https://a.example/mcp" { storageKeyPfx := some "custom" }

/-- An exchange oracle whose code exchange always succeeds without touching
storage. -/
def exchangeOk : ProviderOptions → String → Storage → ExchangeOutcome × Storage :=
  fun _ _ s => (.authorized, s)

/-- A callback request carrying code `C` and state token `TOK`. -/
def callbackReq : CallbackInput :=
  { code := some "C", state := some "TOK", errorParam := none, errorDescription := none }

/-- The hook state as it stands when the in-connect auth flow has reported
`AUTHORIZED` and the fire-and-forget `connect()` restart is invoked: the logs
of the failed attempt, state `authenticating`, timeout cleared, in-progress
flag cleared.  (This replays the state updates of
`tryConnectWithTransport`'s unauthorized/authorized path.) -/
def stAfterAuthorized (t : TransportType) (st : McpState) : McpState :=
  let st := st.addLog .info
    ("Attempting connection with " ++ t.upperName ++ " transport...")
  let st := if st.state ≠ .authenticating then { st with state := .connecting } else st
  let st := { st with transport := some t }
  let st := st.addLog .debug (t.upperName ++ " transport created.")
  let st := st.addLog .info ("Connecting client via " ++ t.upperName ++ "...")
  let st := st.addLog .debug ("Client connect error via " ++ t.upperName ++ ":")
  let st := st.addLog .info "Authentication required. Initiating SDK auth flow..."
  let st := if st.state ≠ .authenticating then
      { st with state := .authenticating, authTimeoutArmed := true }
    else st
  let st := st.addLog .info
    "Authentication successful via existing token or refresh. Re-attempting connection..."
  { st with authTimeoutArmed := false, connectingFlag := false }

/-- The hook state when `callTool`'s re-authentication reported `AUTHORIZED`
and the reconnect is invoked. -/
def stAfterToolAuthorized (name : String) (err : JsError) (st : McpState) : McpState :=
  let st := st.addLog .info ("Calling tool: " ++ name)
  let st := st.addLog .error ("Error calling tool \"" ++ name ++ "\": " ++ err.message)
  let st := st.addLog .warn "Tool call unauthorized, attempting re-authentication..."
  let st := { st with state := .authenticating, authTimeoutArmed := true }
  let st := st.addLog .info
    "Re-authentication successful. Retrying tool call is recommended, or reconnecting."
  { st with authTimeoutArmed := false, connectingFlag := false }

/-- The provider options embedded in `providerA`'s correlation records. -/
def providerOptionsA : ProviderOptions :=
  { serverUrl := "https://a.example/mcp", storageKeyPfx := "mcp:auth",
    clientName := "MCP Browser Client", clientUri := "", callbackUrl := "/oauth/callback" }

/-- The correlation record `providerA` persists at time 1000 for token `TOK`. -/
def stateRecA : StoredState :=
  { serverUrlHash := providerA.serverUrlHash, expiry := 601000,
    providerOptions := some providerOptionsA }

/-- The storage produced by `providerA`'s authorization redirect at time 1000. -/
def storageRedirectA : Storage :=
  redirectToAuthorization providerA "TOK" "https://auth.example/a" 1000 []

/-- A storage holding entries of the two identities `providerA`/`providerB`. -/
def storageAB : Storage :=
  [(providerA.getKey "tokens", .str "ta"),
   (providerB.getKey "tokens", .str "tb"),
   ("mcp:auth:state_T1",
    .stateRec { serverUrlHash := providerA.serverUrlHash, expiry := 5, providerOptions := none }),
   ("mcp:auth:state_T2",
    .stateRec { serverUrlHash := providerB.serverUrlHash, expiry := 5, providerOptions := none }),
   (providerA.getKey "code_verifier", .str "cv")]

/-! ## Log-buffer lemmas and claim C10 -/

lemma length_addLogEntry (l : List LogEntry) (e : LogEntry) :
    (addLogEntry l e).length = min l.length 100 + 1 := by
  simp [addLogEntry, jsSliceLast]
  omega

lemma appendLogAll_length (es : List LogEntry) :
    ∀ init : List LogEntry, init.length ≤ 101 →
      (appendLogAll init es).length = min (init.length + es.length) 101 := by
  induction es with
  | nil =>
      intro init h
      simp [appendLogAll]
      omega
  | cons e es ih =>
      intro init h
      have h2 : (addLogEntry init e).length ≤ 101 := by
        rw [length_addLogEntry]; omega
      have hrec := ih (addLogEntry init e) h2
      rw [length_addLogEntry] at hrec
      have hstep : appendLogAll init (e :: es) = appendLogAll (addLogEntry init e) es := by
        simp [appendLogAll]
      rw [hstep, hrec]
      simp only [List.length_cons]
      omega

lemma suffix_append_right {α : Type} {l1 l2 t : List α} (h : l1 <:+ l2) :
    l1 ++ t <:+ l2 ++ t := by
  obtain ⟨u, rfl⟩ := h
  exact ⟨u, by simp⟩

lemma addLogEntry_suffix (l : List LogEntry) (e : LogEntry) :
    addLogEntry l e <:+ l ++ [e] :=
  suffix_append_right (List.drop_suffix _ _)

lemma appendLogAll_suffix (es : List LogEntry) :
    ∀ init : List LogEntry, appendLogAll init es <:+ init ++ es := by
  induction es with
  | nil =>
      intro init
      simp [appendLogAll]
  | cons e es ih =>
      intro init
      have h1 := ih (addLogEntry init e)
      have h2 : addLogEntry init e ++ es <:+ (init ++ [e]) ++ es :=
        suffix_append_right (addLogEntry_suffix init e)
      have hstep : appendLogAll init (e :: es) = appendLogAll (addLogEntry init e) es := by
        simp [appendLogAll]
      rw [hstep]
      refine h1.trans (h2.trans ?_)
      simp

/-! ## Storage lemmas -/

lemma getItem_removeItem (s : Storage) (k k2 : String) :
    getItem (removeItem s k) k2 = if k2 = k then none else getItem s k2 := by
  induction s with
  | nil => simp [removeItem, getItem]
  | cons kv s ih =>
      by_cases h1 : kv.1 = k <;> by_cases h2 : k2 = k <;> by_cases h3 : kv.1 = k2 <;>
        simp_all [removeItem, getItem, List.filter_cons, List.find?_cons]

lemma getItem_cons (kv : String × StoredVal) (s : Storage) (k2 : String) :
    getItem (kv :: s) k2 = if kv.1 == k2 then some kv.2 else getItem s k2 := by
  by_cases h : (kv.1 == k2) = true <;> simp [getItem, List.find?_cons, h]

lemma getItem_map_set_self (s : Storage) (k : String) (v : StoredVal)
    (hany : s.any (fun kv2 => kv2.1 == k) = true) :
    getItem (s.map (fun kv => if kv.1 = k then (k, v) else kv)) k = some v := by
  induction s with
  | nil => simp at hany
  | cons kv s ih =>
      by_cases h1 : kv.1 = k
      · rw [List.map_cons, if_pos h1, getItem_cons]
        simp
      · rw [List.map_cons, if_neg h1, getItem_cons]
        have hB : (kv.1 == k) = false := by simp [h1]
        have hany2 : s.any (fun kv2 => kv2.1 == k) = true := by
          rw [List.any_cons, hB, Bool.false_or] at hany
          exact hany
        simp [hB, ih hany2]

lemma getItem_map_set_ne (s : Storage) (k k2 : String) (v : StoredVal) (h : k2 ≠ k) :
    getItem (s.map (fun kv => if kv.1 = k then (k, v) else kv)) k2 = getItem s k2 := by
  induction s with
  | nil => simp [getItem]
  | cons kv s ih =>
      by_cases h1 : kv.1 = k
      · rw [List.map_cons, if_pos h1, getItem_cons, getItem_cons]
        have hA : ((k, v).1 == k2) = false := by simp [Ne.symm h]
        have hB : (kv.1 == k2) = false := by simp [h1, Ne.symm h]
        rw [hA, hB, ih]
        simp
      · rw [List.map_cons, if_neg h1, getItem_cons, getItem_cons, ih]

lemma getItem_setItem_self (s : Storage) (k : String) (v : StoredVal) :
    getItem (setItem s k v) k = some v := by
  by_cases hany : s.any (fun kv2 => kv2.1 == k) = true
  · simpa [setItem, hany] using getItem_map_set_self s k v hany
  · have hnone : List.find? (fun kv => kv.1 == k) s = none := by
      rw [List.find?_eq_none]
      intro x hx hb
      apply hany
      rw [List.any_eq_true]
      exact ⟨x, hx, hb⟩
    simp [setItem, hany, getItem, List.find?_append, hnone]

lemma getItem_setItem_ne (s : Storage) (k k2 : String) (v : StoredVal) (h : k2 ≠ k) :
    getItem (setItem s k v) k2 = getItem s k2 := by
  by_cases hany : s.any (fun kv2 => kv2.1 == k) = true
  · simpa [setItem, hany] using getItem_map_set_ne s k k2 v h
  · simp [setItem, hany, getItem, List.find?_append, Ne.symm h]

lemma credKey_ne_stateKey (pfx hash keySuffix token : String) :
    pfx ++ "_" ++ hash ++ "_" ++ keySuffix ≠ pfx ++ ":state_" ++ token := by
  intro h
  have h2 := congrArg String.data h
  simp only [String.data_append, List.append_assoc] at h2
  have h3 := List.append_cancel_left h2
  simp at h3

/-- Claim C10 (counterexample): the log is not capped at 100 entries — after
101 appends to an empty log, `addLog`'s updater
(`[...prevLog.slice(-100), entry]`) has retained all 101 entries. -/
theorem C10_counterexample : ¬ ((appendLogAll [] logEntries101).length ≤ 100) := by
  have hlen : logEntries101.length = 101 := by simp [logEntries101]
  have h := appendLogAll_length logEntries101 [] (by simp)
  rw [hlen] at h
  simp only [List.length_nil, Nat.zero_add, Nat.min_self] at h
  omega

/-- Claim C10 (amended): the log feed is a capped buffer retaining the last
101 entries: after any sequence of appends to an initially empty log, the log
holds `min n 101` entries and they are a suffix (the most recently appended
entries, in order) of the appended sequence. -/
theorem C10_log_cap (es : List LogEntry) :
    (appendLogAll [] es).length = min es.length 101 ∧ appendLogAll [] es <:+ es := by
  constructor
  · simpa using appendLogAll_length es [] (by simp)
  · simpa using appendLogAll_suffix es []

/-! ## Claims C5, C6, C8: correlation records -/

/-- Claim C5: a correlation token is consumable exactly once.  When the
callback completion succeeds (valid code/state, unexpired record, successful
code exchange), the record is removed, and replaying the callback with the
same code and state parameters fails with the no-matching-state error. -/
theorem C5_token_single_use
    (exchange : ProviderOptions → String → Storage → ExchangeOutcome × Storage)
    (now now2 : Nat) (q : CallbackInput) (s0 s1 : Storage)
    (code st : String) (d : StoredState) (po : ProviderOptions)
    (hqe : q.errorParam = none) (hqc : q.code = some code) (hqs : q.state = some st)
    (hrec : getItem s0 ("mcp:auth:state_" ++ st) = some (.stateRec d))
    (hexp0 : d.expiry ≠ 0) (hexp : ¬ d.expiry < now)
    (hpo : d.providerOptions = some po)
    (hex : exchange po code s0 = (.authorized, s1)) :
    onMcpAuthorization exchange now q s0 =
      (.success, removeItem s1 ("mcp:auth:state_" ++ st)) ∧
    (onMcpAuthorization exchange now2 q (removeItem s1 ("mcp:auth:state_" ++ st))).1 =
      .failure ("Invalid or expired state parameter \"" ++ st ++
        "\". No matching state found in storage.") := by
  constructor
  · simp [onMcpAuthorization, hqe, hqc, hqs, hrec, parseStoredState, hexp0, hexp, hpo, hex]
  · have hnone : getItem (removeItem s1 ("mcp:auth:state_" ++ st))
        ("mcp:auth:state_" ++ st) = none := by
      simp [getItem_removeItem]
    simp [onMcpAuthorization, hqe, hqc, hqs, hnone]

set_option maxRecDepth 10000 in
/-- Claim C5 witness: the generic single-use theorem instantiated on
`providerA`'s concrete redirect storage. -/
theorem C5_token_single_use_witness :
    onMcpAuthorization exchangeOk 2000 callbackReq storageRedirectA =
      (.success, removeItem storageRedirectA ("mcp:auth:state_" ++ "TOK")) ∧
    (onMcpAuthorization exchangeOk 2000 callbackReq
        (removeItem storageRedirectA ("mcp:auth:state_" ++ "TOK"))).1 =
      .failure ("Invalid or expired state parameter \"" ++ "TOK" ++
        "\". No matching state found in storage.") :=
  C5_token_single_use exchangeOk 2000 2000 callbackReq storageRedirectA storageRedirectA
    "C" "TOK" stateRecA providerOptionsA rfl rfl rfl (by decide) (by decide) (by decide)
    (by decide) rfl

/-- Claim C6: correlation records are persisted with expiry `now + 10min`, and
the callback completion rejects a record whose expiry has passed — even with
otherwise-valid code and state — removing the expired record. -/
theorem C6_expiry
    (exchange : ProviderOptions → String → Storage → ExchangeOutcome × Storage)
    (p : BrowserOAuthClientProvider) (tok authUrlString code : String)
    (now now2 : Nat) (s0 : Storage) (q : CallbackInput)
    (hpfx : p.storageKeyPfx = "mcp:auth")
    (hqe : q.errorParam = none) (hqc : q.code = some code) (hqs : q.state = some tok)
    (hlate : now + 1000 * 60 * 10 < now2) :
    getItem (redirectToAuthorization p tok authUrlString now s0)
        ("mcp:auth:state_" ++ tok) =
      some (.stateRec
        { serverUrlHash := p.serverUrlHash
          expiry := now + 1000 * 60 * 10
          providerOptions := some
            { serverUrl := p.serverUrl, storageKeyPfx := p.storageKeyPfx,
              clientName := p.clientName, clientUri := p.clientUri,
              callbackUrl := p.callbackUrl } }) ∧
    (onMcpAuthorization exchange now2 q
        (redirectToAuthorization p tok authUrlString now s0)).1 =
      .failure "OAuth state has expired. Please try initiating authentication again." ∧
    getItem (onMcpAuthorization exchange now2 q
        (redirectToAuthorization p tok authUrlString now s0)).2
        ("mcp:auth:state_" ++ tok) = none := by
  have hne : p.getKey "last_auth_url" ≠ p.storageKeyPfx ++ ":state_" ++ tok :=
    credKey_ne_stateKey _ _ _ _
  have hkey : p.storageKeyPfx ++ ":state_" ++ tok = "mcp:auth:state_" ++ tok := by
    rw [hpfx]
    have : ("mcp:auth" : String) ++ ":state_" ++ tok = "mcp:auth:state_" ++ tok := by
      simp [String.ext_iff]
    exact this
  have hget : getItem (redirectToAuthorization p tok authUrlString now s0)
      ("mcp:auth:state_" ++ tok) =
      some (.stateRec
        { serverUrlHash := p.serverUrlHash
          expiry := now + 1000 * 60 * 10
          providerOptions := some
            { serverUrl := p.serverUrl, storageKeyPfx := p.storageKeyPfx,
              clientName := p.clientName, clientUri := p.clientUri,
              callbackUrl := p.callbackUrl } }) := by
    unfold redirectToAuthorization
    rw [← hkey]
    rw [getItem_setItem_ne _ _ _ _ (Ne.symm hne)]
    exact getItem_setItem_self _ _ _
  have hlt : now + 600000 < now2 := by omega
  refine ⟨hget, ?_, ?_⟩
  · simp [onMcpAuthorization, hqe, hqc, hqs, hget, parseStoredState, hlt]
  · simp [onMcpAuthorization, hqe, hqc, hqs, hget, parseStoredState, hlt,
      callbackCleanup, getItem_removeItem]

/-- Claim C6 witness: the expiry theorem instantiated on `providerA`, token
`TOK`, stored at time 1000 and replayed at time 700000. -/
theorem C6_expiry_witness :
    getItem (redirectToAuthorization providerA "TOK" "https://auth.example/a" 1000 [])
        ("mcp:auth:state_" ++ "TOK") =
      some (.stateRec
        { serverUrlHash := providerA.serverUrlHash
          expiry := 1000 + 1000 * 60 * 10
          providerOptions := some
            { serverUrl := providerA.serverUrl, storageKeyPfx := providerA.storageKeyPfx,
              clientName := providerA.clientName, clientUri := providerA.clientUri,
              callbackUrl := providerA.callbackUrl } }) ∧
    (onMcpAuthorization exchangeOk 700000 callbackReq
        (redirectToAuthorization providerA "TOK" "https://auth.example/a" 1000 [])).1 =
      .failure "OAuth state has expired. Please try initiating authentication again." ∧
    getItem (onMcpAuthorization exchangeOk 700000 callbackReq
        (redirectToAuthorization providerA "TOK" "https://auth.example/a" 1000 [])).2
        ("mcp:auth:state_" ++ "TOK") = none :=
  C6_expiry exchangeOk providerA "TOK" "https://auth.example/a" "C" 1000 700000 []
    callbackReq rfl rfl rfl rfl (by decide)

set_option maxRecDepth 10000 in
/-- Claim C8: credential keys live under
`{prefix}_{serverHash}_{client_info | tokens | code_verifier | last_auth_url}`
and the provider persists correlation records under `{prefix}:state_{token}` —
but the callback completion handler resolves the fixed key
`mcp:auth:state_{token}` regardless of the configured prefix: with prefix
`custom`, the record persisted by `redirectToAuthorization` is not found and
the callback fails with the no-matching-state error. -/
theorem C8_key_layout_and_callback_mismatch :
    (∀ p : BrowserOAuthClientProvider,
      p.getKey "client_info" = p.storageKeyPfx ++ "_" ++ p.serverUrlHash ++ "_" ++ "client_info" ∧
      p.getKey "tokens" = p.storageKeyPfx ++ "_" ++ p.serverUrlHash ++ "_" ++ "tokens" ∧
      p.getKey "code_verifier" =
        p.storageKeyPfx ++ "_" ++ p.serverUrlHash ++ "_" ++ "code_verifier" ∧
      p.getKey "last_auth_url" =
        p.storageKeyPfx ++ "_" ++ p.serverUrlHash ++ "_" ++ "last_auth_url") ∧
    providerCustom.storageKeyPfx = "custom" ∧
    getItem (redirectToAuthorization providerCustom "TOK" "https://auth.example/a" 1000 [])
        ("custom:state_" ++ "TOK") =
      some (.stateRec
        { serverUrlHash := providerCustom.serverUrlHash
          expiry := 601000
          providerOptions := some
            { serverUrl := "https://a.example/mcp", storageKeyPfx := "custom",
              clientName := "MCP Browser Client", clientUri := "",
              callbackUrl := "/oauth/callback" } }) ∧
    (onMcpAuthorization exchangeOk 2000 callbackReq
        (redirectToAuthorization providerCustom "TOK" "https://auth.example/a" 1000 [])).1 =
      .failure ("Invalid or expired state parameter \"TOK\". " ++
        "No matching state found in storage.") := by
  refine ⟨fun p => ⟨rfl, rfl, rfl, rfl⟩, rfl, by decide, by decide⟩

/-! ## Claim C7: clearStorage isolation -/

lemma jsStartsWith_iff (s pat : String) : jsStartsWith s pat = true ↔ pat.data <+: s.data := by
  simp [jsStartsWith]

lemma digitChar_ne_underscore (d : Nat) : Nat.digitChar d ≠ '_' := by
  by_cases h16 : d < 16
  · interval_cases d <;> decide
  · unfold Nat.digitChar
    repeat rw [if_neg (by omega)]
    decide

lemma toDigitsCore_no_underscore (b : Nat) :
    ∀ (fuel n : Nat) (ds : List Char), (∀ c ∈ ds, c ≠ '_') →
      ∀ c ∈ Nat.toDigitsCore b fuel n ds, c ≠ '_' := by
  intro fuel
  induction fuel with
  | zero =>
      intro n ds h
      simpa [Nat.toDigitsCore] using h
  | succ fuel ih =>
      intro n ds h c hc
      have hcons : ∀ x ∈ Nat.digitChar (n % b) :: ds, x ≠ '_' := by
        intro x hx
        rcases List.mem_cons.mp hx with hx | hx
        · subst hx; exact digitChar_ne_underscore _
        · exact h x hx
      have hstep : Nat.toDigitsCore b (fuel + 1) n ds =
          if n / b = 0 then Nat.digitChar (n % b) :: ds
          else Nat.toDigitsCore b fuel (n / b) (Nat.digitChar (n % b) :: ds) := rfl
      rw [hstep] at hc
      by_cases hz : n / b = 0
      · rw [if_pos hz] at hc
        exact hcons c hc
      · rw [if_neg hz] at hc
        exact ih (n / b) (Nat.digitChar (n % b) :: ds) hcons c hc

lemma hashString_no_underscore (s : String) : ∀ c ∈ (hashString s).data, c ≠ '_' := by
  intro c hc
  unfold hashString Nat.toDigits at hc
  exact toDigitsCore_no_underscore 16 _ _ [] (by simp) c hc

lemma not_prefix_marked (a : List Char) :
    ∀ (b t : List Char), '_' ∉ a → '_' ∉ b → a ≠ b →
      ¬ (a ++ ['_'] <+: b ++ '_' :: t) := by
  induction a with
  | nil =>
      intro b t ha hb hne hpre
      cases b with
      | nil => exact hne rfl
      | cons c bs =>
          simp only [List.nil_append, List.cons_append, List.cons_prefix_cons] at hpre
          exact hb (by simp [← hpre.1])
  | cons c as ih =>
      intro b t ha hb hne hpre
      cases b with
      | nil =>
          simp only [List.cons_append, List.nil_append, List.cons_prefix_cons] at hpre
          exact ha (by simp [hpre.1])
      | cons c2 bs =>
          simp only [List.cons_append, List.cons_prefix_cons] at hpre
          obtain ⟨hc, hrest⟩ := hpre
          subst hc
          refine ih bs t (fun h => ha (List.mem_cons_of_mem _ h))
            (fun h => hb (List.mem_cons_of_mem _ h)) ?_ hrest
          intro h
          exact hne (by rw [h])

lemma clearTest_owned_isSome (p : BrowserOAuthClientProvider) (kv : String × StoredVal)
    (h : ownedBy p kv) : (clearTest p kv).isSome = true := by
  rcases h with ⟨keySuffix, hk⟩ | ⟨token, d, hk, hv, hh⟩
  · have hsw : jsStartsWith kv.1 (p.storageKeyPfx ++ "_" ++ p.serverUrlHash ++ "_") = true := by
      rw [jsStartsWith_iff, hk]
      simp [List.append_assoc]
    simp [clearTest, hsw]
  · by_cases h1 : jsStartsWith kv.1 (p.storageKeyPfx ++ "_" ++ p.serverUrlHash ++ "_") = true
    · simp [clearTest, h1]
    · have h2 : jsStartsWith kv.1 (p.storageKeyPfx ++ ":state_") = true := by
        rw [jsStartsWith_iff, hk]
        simp [List.append_assoc]
      simp only [Bool.not_eq_true] at h1
      simp [clearTest, h1, h2, hv, parseStoredState, hh]

lemma clearTest_other_none (pA pB : BrowserOAuthClientProvider) (kv : String × StoredVal)
    (hpfx : pB.storageKeyPfx = pA.storageKeyPfx)
    (hne : pA.serverUrlHash ≠ pB.serverUrlHash)
    (hA : '_' ∉ pA.serverUrlHash.data) (hB : '_' ∉ pB.serverUrlHash.data)
    (h : ownedBy pB kv) : clearTest pA kv = none := by
  rcases h with ⟨keySuffix, hk⟩ | ⟨token, d, hk, hv, hh⟩
  · -- a credential key of B matches neither of A's patterns
    have h1 : jsStartsWith kv.1 (pA.storageKeyPfx ++ "_" ++ pA.serverUrlHash ++ "_") = false := by
      rw [Bool.eq_false_iff]
      intro hsw
      rw [jsStartsWith_iff, hk, hpfx] at hsw
      simp only [String.data_append, List.append_assoc, List.singleton_append,
        List.cons_append] at hsw
      rw [List.prefix_append_right_inj] at hsw
      rw [List.cons_prefix_cons] at hsw
      have hdataNe : pA.serverUrlHash.data ≠ pB.serverUrlHash.data :=
        fun hd => hne (String.ext hd)
      have := hsw.2
      -- this : hashA.data ++ '_' :: [] <+: hashB.data ++ '_' :: keySuffix.data
      refine not_prefix_marked pA.serverUrlHash.data pB.serverUrlHash.data
        keySuffix.data hA hB hdataNe ?_
      simpa using this
    have h2 : jsStartsWith kv.1 (pA.storageKeyPfx ++ ":state_") = false := by
      rw [Bool.eq_false_iff]
      intro hsw
      rw [jsStartsWith_iff, hk, hpfx] at hsw
      simp only [String.data_append, List.append_assoc, List.singleton_append,
        List.cons_append] at hsw
      rw [List.prefix_append_right_inj] at hsw
      rw [List.cons_prefix_cons] at hsw
      exact absurd hsw.1 (by decide)
    simp [clearTest, h1, h2]
  · -- a correlation record of B parses but carries a different hash
    have h1 : jsStartsWith kv.1 (pA.storageKeyPfx ++ "_" ++ pA.serverUrlHash ++ "_") = false := by
      rw [Bool.eq_false_iff]
      intro hsw
      rw [jsStartsWith_iff, hk, hpfx] at hsw
      simp only [String.data_append, List.append_assoc, List.singleton_append,
        List.cons_append] at hsw
      rw [List.prefix_append_right_inj] at hsw
      rw [List.cons_prefix_cons] at hsw
      exact absurd hsw.1 (by decide)
    have h2 : jsStartsWith kv.1 (pA.storageKeyPfx ++ ":state_") = true := by
      rw [jsStartsWith_iff, hk, hpfx]
      simp [List.append_assoc]
    have hbe : (d.serverUrlHash == pA.serverUrlHash) = false := by
      rw [hh]
      exact beq_eq_false_iff_ne.mpr (Ne.symm hne)
    simp [clearTest, h1, h2, hv, parseStoredState, hbe]

lemma clearTest_eq_some (p : BrowserOAuthClientProvider) (kv : String × StoredVal)
    (x : String) (h : clearTest p kv = some x) : x = kv.1 := by
  unfold clearTest at h
  repeat' split at h
  all_goals simp_all

lemma filterMap_clearTest (p : BrowserOAuthClientProvider) (s : Storage) :
    s.filterMap (clearTest p) =
      (s.filter (fun kv => (clearTest p kv).isSome)).map Prod.fst := by
  induction s with
  | nil => rfl
  | cons kv s ih =>
      cases hc : clearTest p kv with
      | none => simp [List.filterMap_cons, List.filter_cons, hc, ih]
      | some x =>
          have hx := clearTest_eq_some p kv x hc
          subst hx
          simp [List.filterMap_cons, List.filter_cons, hc, ih]

lemma foldl_removeItem (ks : List String) :
    ∀ s : Storage, ks.foldl removeItem s = s.filter (fun kv => !(ks.contains kv.1)) := by
  induction ks with
  | nil => intro s; simp [List.filter_eq_self]
  | cons k ks ih =>
      intro s
      rw [List.foldl_cons, ih]
      unfold removeItem
      rw [List.filter_filter]
      apply List.filter_congr
      intro kv _
      simp only [List.contains_cons, Bool.not_or]
      rw [Bool.and_comm]

lemma clearStorage_eq (p : BrowserOAuthClientProvider) (s : Storage)
    (hnd : (s.map Prod.fst).Nodup) :
    p.clearStorage s =
      ((s.filter (fun kv => (clearTest p kv).isSome)).length,
       s.filter (fun kv => !((clearTest p kv).isSome))) := by
  simp only [BrowserOAuthClientProvider.clearStorage]
  rw [filterMap_clearTest]
  have hnodup : ((s.filter fun kv => (clearTest p kv).isSome).map Prod.fst).Nodup :=
    List.Nodup.sublist ((List.filter_sublist s).map Prod.fst) hnd
  rw [List.Nodup.dedup hnodup]
  refine Prod.ext ?_ ?_
  · simp
  · show List.foldl removeItem s _ = _
    rw [foldl_removeItem]
    apply List.filter_congr
    intro kv hkv
    congr 1
    rw [Bool.eq_iff_iff]
    constructor
    · intro hc
      rw [List.elem_iff, List.mem_map] at hc
      obtain ⟨kv2, hkv2, hfst⟩ := hc
      rw [List.mem_filter] at hkv2
      have : kv2 = kv :=
        List.inj_on_of_nodup_map hnd hkv2.1 hkv hfst
      rw [← this]
      exact hkv2.2
    · intro hc
      rw [List.elem_iff, List.mem_map]
      exact ⟨kv, List.mem_filter.mpr ⟨hkv, hc⟩, rfl⟩

/-- Claim C7: `clearStorage()` on a storage shared by two distinct server
identities A and B (distinct namespace hashes of the same configured prefix)
removes exactly the entries whose embedded hash matches A — both credential
keys and correlation records — leaves every entry of B untouched (the result
is exactly the B entries, in order), and returns the removed-entry count. -/
theorem C7_clear_storage_isolation
    (pA pB : BrowserOAuthClientProvider) (s : Storage)
    (hpfx : pB.storageKeyPfx = pA.storageKeyPfx)
    (hA : pA.serverUrlHash = hashString pA.serverUrl)
    (hB : pB.serverUrlHash = hashString pB.serverUrl)
    (hne : pA.serverUrlHash ≠ pB.serverUrlHash)
    (hnd : (s.map Prod.fst).Nodup)
    (hshape : ∀ kv ∈ s, ownedBy pA kv ∨ ownedBy pB kv) :
    (pA.clearStorage s).1 = (s.filter (fun kv => (clearTest pA kv).isSome)).length ∧
    (pA.clearStorage s).2 = s.filter (fun kv => !((clearTest pA kv).isSome)) ∧
    (∀ kv ∈ s, ownedBy pA kv → (clearTest pA kv).isSome = true) ∧
    (∀ kv ∈ s, ownedBy pB kv → clearTest pA kv = none) ∧
    (∀ kv ∈ s, (kv ∈ (pA.clearStorage s).2 ↔ ownedBy pB kv)) := by
  have hAu : '_' ∉ pA.serverUrlHash.data := by
    rw [hA]; intro hmem; exact hashString_no_underscore _ _ hmem rfl
  have hBu : '_' ∉ pB.serverUrlHash.data := by
    rw [hB]; intro hmem; exact hashString_no_underscore _ _ hmem rfl
  have heq := clearStorage_eq pA s hnd
  have hOwnA : ∀ kv ∈ s, ownedBy pA kv → (clearTest pA kv).isSome = true :=
    fun kv _ h => clearTest_owned_isSome pA kv h
  have hOwnB : ∀ kv ∈ s, ownedBy pB kv → clearTest pA kv = none :=
    fun kv _ h => clearTest_other_none pA pB kv hpfx hne hAu hBu h
  refine ⟨by rw [heq], by rw [heq], hOwnA, hOwnB, ?_⟩
  intro kv hkv
  rw [heq]
  simp only [List.mem_filter]
  constructor
  · rintro ⟨hmem, hnone⟩
    rcases hshape kv hkv with hA2 | hB2
    · rw [hOwnA kv hkv hA2] at hnone
      simp at hnone
    · exact hB2
  · intro hB2
    refine ⟨hkv, ?_⟩
    rw [hOwnB kv hkv hB2]
    rfl

set_option maxRecDepth 40000 in
/-- Claim C7 witness: the isolation theorem on the concrete mixed storage
`storageAB` of `providerA` and `providerB`. -/
theorem C7_clear_storage_isolation_witness :
    (providerA.clearStorage storageAB).1 =
      (storageAB.filter (fun kv => (clearTest providerA kv).isSome)).length ∧
    (providerA.clearStorage storageAB).2 =
      storageAB.filter (fun kv => !((clearTest providerA kv).isSome)) ∧
    (∀ kv ∈ storageAB, ownedBy providerA kv → (clearTest providerA kv).isSome = true) ∧
    (∀ kv ∈ storageAB, ownedBy providerB kv → clearTest providerA kv = none) ∧
    (∀ kv ∈ storageAB, (kv ∈ (providerA.clearStorage storageAB).2 ↔ ownedBy providerB kv)) :=
  C7_clear_storage_isolation providerA providerB storageAB rfl rfl rfl (by decide) (by decide)
    (by
      intro kv hkv
      simp only [storageAB, List.mem_cons, List.not_mem_nil, or_false] at hkv
      rcases hkv with rfl | rfl | rfl | rfl | rfl
      · exact Or.inl (Or.inl ⟨"tokens", rfl⟩)
      · exact Or.inr (Or.inl ⟨"tokens", rfl⟩)
      · exact Or.inl (Or.inr ⟨"T1", _, by decide, rfl, rfl⟩)
      · exact Or.inr (Or.inr ⟨"T2", _, by decide, rfl, rfl⟩)
      · exact Or.inl (Or.inl ⟨"code_verifier", rfl⟩))

/-! ## Orchestrator lemmas -/

@[simp] lemma addLog_state (st : McpState) (l : LogLevel) (m : String) :
    (st.addLog l m).state = st.state := by
  unfold McpState.addLog; split <;> rfl

@[simp] lemma addLog_tools (st : McpState) (l : LogLevel) (m : String) :
    (st.addLog l m).tools = st.tools := by
  unfold McpState.addLog; split <;> rfl

@[simp] lemma addLog_resources (st : McpState) (l : LogLevel) (m : String) :
    (st.addLog l m).resources = st.resources := by
  unfold McpState.addLog; split <;> rfl

@[simp] lemma addLog_prompts (st : McpState) (l : LogLevel) (m : String) :
    (st.addLog l m).prompts = st.prompts := by
  unfold McpState.addLog; split <;> rfl

@[simp] lemma addLog_error (st : McpState) (l : LogLevel) (m : String) :
    (st.addLog l m).error = st.error := by
  unfold McpState.addLog; split <;> rfl

@[simp] lemma addLog_authUrl (st : McpState) (l : LogLevel) (m : String) :
    (st.addLog l m).authUrl = st.authUrl := by
  unfold McpState.addLog; split <;> rfl

@[simp] lemma addLog_connectingFlag (st : McpState) (l : LogLevel) (m : String) :
    (st.addLog l m).connectingFlag = st.connectingFlag := by
  unfold McpState.addLog; split <;> rfl

@[simp] lemma addLog_isMounted (st : McpState) (l : LogLevel) (m : String) :
    (st.addLog l m).isMounted = st.isMounted := by
  unfold McpState.addLog; split <;> rfl

@[simp] lemma addLog_connectAttempt (st : McpState) (l : LogLevel) (m : String) :
    (st.addLog l m).connectAttempt = st.connectAttempt := by
  unfold McpState.addLog; split <;> rfl

@[simp] lemma addLog_authTimeoutArmed (st : McpState) (l : LogLevel) (m : String) :
    (st.addLog l m).authTimeoutArmed = st.authTimeoutArmed := by
  unfold McpState.addLog; split <;> rfl

@[simp] lemma addLog_transport (st : McpState) (l : LogLevel) (m : String) :
    (st.addLog l m).transport = st.transport := by
  unfold McpState.addLog; split <;> rfl

@[simp] lemma addLog_successfulTransport (st : McpState) (l : LogLevel) (m : String) :
    (st.addLog l m).successfulTransport = st.successfulTransport := by
  unfold McpState.addLog; split <;> rfl

@[simp] lemma addLog_hasAuthProvider (st : McpState) (l : LogLevel) (m : String) :
    (st.addLog l m).hasAuthProvider = st.hasAuthProvider := by
  unfold McpState.addLog; split <;> rfl

@[simp] lemma addLog_hasClient (st : McpState) (l : LogLevel) (m : String) :
    (st.addLog l m).hasClient = st.hasClient := by
  unfold McpState.addLog; split <;> rfl

@[simp] lemma failConnection_connectingFlag (env : Env) (st : McpState) (m : String) :
    (failConnection env st m).connectingFlag = false := rfl

@[simp] lemma failConnection_isMounted (env : Env) (st : McpState) (m : String) :
    (failConnection env st m).isMounted = st.isMounted := by
  simp only [failConnection]
  split <;> (try split) <;> simp

lemma failConnection_state (env : Env) (st : McpState) (m : String)
    (hm : st.isMounted = true) : (failConnection env st m).state = .failed := by
  simp only [failConnection]
  rw [if_pos (show (st.addLog LogLevel.error m).isMounted = true by simp [hm])]
  split <;> simp

lemma failConnection_error (env : Env) (st : McpState) (m : String)
    (hm : st.isMounted = true) : (failConnection env st m).error = some m := by
  simp only [failConnection]
  rw [if_pos (show (st.addLog LogLevel.error m).isMounted = true by simp [hm])]
  split <;> simp

/-! ## Claims C3 and C4: the in-progress guard and the not-ready guards -/

/-- Claim C3: a `connect()` call issued while a connection attempt is already
in progress is a no-op: it only logs, creates no transport (no events at all),
does not increment the attempt counter, and leaves every observable field —
state, catalogs, error, authUrl — unchanged. -/
theorem C3_connect_in_progress_noop (fuel : Nat) (url : String) (env : Env)
    (st : McpState) (h : st.connectingFlag = true) :
    (connect fuel url env st).1 = env ∧
    (connect fuel url env st).2.2 = [] ∧
    (connect fuel url env st).2.1.state = st.state ∧
    (connect fuel url env st).2.1.tools = st.tools ∧
    (connect fuel url env st).2.1.resources = st.resources ∧
    (connect fuel url env st).2.1.prompts = st.prompts ∧
    (connect fuel url env st).2.1.error = st.error ∧
    (connect fuel url env st).2.1.authUrl = st.authUrl ∧
    (connect fuel url env st).2.1.connectAttempt = st.connectAttempt ∧
    (connect fuel url env st).2.1.transport = st.transport ∧
    (connect fuel url env st).2.1.connectingFlag = true := by
  cases fuel with
  | zero => simp [connect, h]
  | succ fuel => simp [connect, h]

/-- Claim C3 witness: the no-op guard at the concrete ready state with the
in-progress flag set. -/
theorem C3_connect_in_progress_noop_witness :
    (connect 1 "https://a.example/mcp" envFallbackFail
        { readyState with connectingFlag := true }).2.2 = [] ∧
    (connect 1 "https://a.example/mcp" envFallbackFail
        { readyState with connectingFlag := true }).2.1.state = .ready := by
  have h := C3_connect_in_progress_noop 1 "https://a.example/mcp" envFallbackFail
    { readyState with connectingFlag := true } rfl
  exact ⟨h.2.1, h.2.2.1⟩

/-- Claim C4: every request operation invoked while the state is not `ready`
rejects with the not-ready error naming the current state and the operation,
without issuing any request (no events) and without changing the state. -/
theorem C4_not_ready_guards (st : McpState) (h : st.state ≠ .ready)
    (fuel : Nat) (url toolName uri promptName : String) (cursor cursor2 : Option String)
    (reqS : Except JsError String) (reqL : Except JsError (List String)) (env : Env) :
    callTool fuel url toolName reqS env st =
      (.error { message := "MCP client is not ready (current state: " ++ st.state.jsName ++
        "). " ++ ("Cannot call tool \"" ++ toolName ++ "\".") }, env, st, []) ∧
    listResources cursor reqL st =
      (.error { message := "MCP client is not ready (current state: " ++ st.state.jsName ++
        "). " ++ "Cannot list resources." }, st, []) ∧
    readResource uri reqS st =
      (.error { message := "MCP client is not ready (current state: " ++ st.state.jsName ++
        "). " ++ ("Cannot read resource \"" ++ uri ++ "\".") }, st, []) ∧
    listPrompts cursor2 reqL st =
      (.error { message := "MCP client is not ready (current state: " ++ st.state.jsName ++
        "). " ++ "Cannot list prompts." }, st, []) ∧
    getPrompt promptName reqS st =
      (.error { message := "MCP client is not ready (current state: " ++ st.state.jsName ++
        "). " ++ ("Cannot get prompt \"" ++ promptName ++ "\".") }, st, []) := by
  refine ⟨?_, ?_, ?_, ?_, ?_⟩ <;>
    simp [callTool, listResources, readResource, listPrompts, getPrompt, h, notReadyMessage]

/-- Claim C4 witness: the guards at the concrete `connecting` state. -/
theorem C4_not_ready_guards_witness :
    callTool 1 "https://a.example/mcp" "t" (.ok "r") envRedirect
        { readyState with state := .connecting } =
      (.error { message := "MCP client is not ready (current state: " ++
        ConnectionState.jsName .connecting ++ "). " ++ ("Cannot call tool \"" ++ "t" ++ "\".") },
       envRedirect, { readyState with state := .connecting }, []) ∧
    listResources none (.ok []) { readyState with state := .connecting } =
      (.error { message := "MCP client is not ready (current state: " ++
        ConnectionState.jsName .connecting ++ "). " ++ "Cannot list resources." },
       { readyState with state := .connecting }, []) ∧
    readResource "u" (.ok "r") { readyState with state := .connecting } =
      (.error { message := "MCP client is not ready (current state: " ++
        ConnectionState.jsName .connecting ++ "). " ++ ("Cannot read resource \"" ++ "u" ++ "\".") },
       { readyState with state := .connecting }, []) ∧
    listPrompts none (.ok []) { readyState with state := .connecting } =
      (.error { message := "MCP client is not ready (current state: " ++
        ConnectionState.jsName .connecting ++ "). " ++ "Cannot list prompts." },
       { readyState with state := .connecting }, []) ∧
    getPrompt "p" (.ok "r") { readyState with state := .connecting } =
      (.error { message := "MCP client is not ready (current state: " ++
        ConnectionState.jsName .connecting ++ "). " ++ ("Cannot get prompt \"" ++ "p" ++ "\".") },
       { readyState with state := .connecting }, []) :=
  C4_not_ready_guards { readyState with state := .connecting } (by decide)
    1 "https://a.example/mcp" "t" "u" "p" none none (.ok "r") (.ok []) envRedirect

/-! ## Claim C1: soft-retryable fallback makes exactly one SSE attempt -/

/-- Claim C1: when the primary (HTTP) attempt fails with a soft-retryable
classification (404 / 405 / cross-origin-like fetch failure), exactly one
secondary (SSE) attempt is made; when that secondary attempt fails with a
non-auth error, the cycle ends in terminal failure — no third transport
attempt (the event trace is exactly `[attempt http, attempt sse]`). -/
theorem C1_fallback_single_sse (fuel : Nat) (url : String) (env : Env)
    (st : McpState) (e1 e2 : JsError)
    (hcf : st.connectingFlag = false) (hm : st.isMounted = true)
    (henv : env.attemptResults = [.connectError e1, .connectError e2])
    (hsoft : is404 e1.message = true ∨ is405 e1.message = true ∨
      isLikelyCors e1.message = true)
    (hu2 : isUnauthorizedErr e2 = false) :
    (connect (fuel + 1) url env st).2.2 = [Event.attempt .http, Event.attempt .sse] ∧
    (connect (fuel + 1) url env st).2.1.state = .failed ∧
    (connect (fuel + 1) url env st).2.1.error =
      some ("Failed to connect via SSE: " ++ e2.message) ∧
    (connect (fuel + 1) url env st).2.1.connectingFlag = false := by
  by_cases hap : st.hasAuthProvider = true <;> by_cases hcl : st.hasClient = true <;>
    rcases hsoft with h | h | h <;>
      simp [connect, resetForConnect, tryConnectWithTransport, Env.takeAttempt, henv,
        hcf, hm, h, hu2, hap, hcl, failConnection_state, failConnection_error,
        TransportType.upperName]

/-- Claim C1 witness: the fallback scenario on the concrete environment
`envFallbackFail` (HTTP 404, then an SSE stream error). -/
theorem C1_fallback_single_sse_witness :
    (connect 1 "https://a.example/mcp" envFallbackFail initialState).2.2 =
      [Event.attempt .http, Event.attempt .sse] ∧
    (connect 1 "https://a.example/mcp" envFallbackFail initialState).2.1.state = .failed ∧
    (connect 1 "https://a.example/mcp" envFallbackFail initialState).2.1.error =
      some ("Failed to connect via SSE: " ++ errStream.message) ∧
    (connect 1 "https://a.example/mcp" envFallbackFail initialState).2.1.connectingFlag =
      false :=
  C1_fallback_single_sse 0 "https://a.example/mcp" envFallbackFail initialState
    err404 errStream rfl rfl rfl (Or.inl (by decide)) (by decide)

/-! ## Trace-head lemmas: every processed attempt opens with its own transport,
and a fresh `connect` cycle always tries HTTP first -/

lemma tryConnect_events_attempt {url : String}
    {restart : Env → McpState → Env × McpState × List Event} {t : TransportType}
    {env : Env} {st : McpState} (o : AttemptOutcome) (rest : List AttemptOutcome)
    (henv : env.attemptResults = o :: rest) (ho : o.isCreateError = false)
    {r : TryResult} {env2 : Env} {st2 : McpState} {ev : List Event}
    (heq : tryConnectWithTransport url restart t env st = (r, env2, st2, ev)) :
    ∃ Δ, ev = Event.attempt t :: Δ := by
  have hev : ev = (tryConnectWithTransport url restart t env st).2.2.2 := by
    rw [heq]
  rw [hev]
  cases o with
  | createError e => simp [AttemptOutcome.isCreateError] at ho
  | connected a b c =>
      simp only [tryConnectWithTransport, Env.takeAttempt, henv, List.headD_cons,
        List.tail_cons]
      repeat' split
      all_goals exact ⟨_, rfl⟩
  | connectError e =>
      simp only [tryConnectWithTransport, Env.takeAttempt, henv, List.headD_cons,
        List.tail_cons]
      repeat' split
      all_goals exact ⟨_, rfl⟩

lemma tryConnect_events_proj (url : String)
    (restart : Env → McpState → Env × McpState × List Event) (t : TransportType)
    (env : Env) (st : McpState) (o : AttemptOutcome) (rest : List AttemptOutcome)
    (henv : env.attemptResults = o :: rest) (ho : o.isCreateError = false) :
    ∃ Δ, (tryConnectWithTransport url restart t env st).2.2.2 = Event.attempt t :: Δ :=
  @tryConnect_events_attempt url restart t env st o rest henv ho _ _ _ _ rfl

lemma connect_events_attempt_http {fuel : Nat} {url : String} {env : Env} {st : McpState}
    (o : AttemptOutcome) (rest : List AttemptOutcome)
    (hcf : st.connectingFlag = false) (hm : st.isMounted = true)
    (henv : env.attemptResults = o :: rest) (ho : o.isCreateError = false)
    {env2 : Env} {st2 : McpState} {ev : List Event}
    (heq : connect (fuel + 1) url env st = (env2, st2, ev)) :
    ∃ Δ, ev = Event.attempt .http :: Δ := by
  have hev : ev = (connect (fuel + 1) url env st).2.2 := by
    rw [heq]
  rw [hev]
  clear heq hev
  obtain ⟨Δ0, hΔ0⟩ := tryConnect_events_proj url (connect fuel url) .http env
    (resetForConnect url st) o rest henv ho
  simp [connect, hcf, hm]
  split
  · rw [hΔ0, List.cons_append]
    exact ⟨_, rfl⟩
  · rw [hΔ0]
    exact ⟨_, rfl⟩

lemma connect_events_proj {fuel : Nat} {url : String} (env : Env) (st : McpState)
    (o : AttemptOutcome) (rest : List AttemptOutcome)
    (hcf : st.connectingFlag = false) (hm : st.isMounted = true)
    (henv : env.attemptResults = o :: rest) (ho : o.isCreateError = false) :
    ∃ Δ, (connect (fuel + 1) url env st).2.2 = Event.attempt .http :: Δ :=
  @connect_events_attempt_http fuel url env st o rest hcf hm henv ho _ _ _ rfl

/-- The unauthorized/authorized branch of `tryConnectWithTransport` in closed
form: the attempt fails the soft-retry test, classifies as unauthorized, the
auth call reports `AUTHORIZED`, and the captured `connect` closure is invoked
on the cleared state. -/
lemma tryConnect_authorized_eq (url : String)
    (restart : Env → McpState → Env × McpState × List Event) (t : TransportType)
    (env : Env) (st : McpState) (e : JsError)
    (restAtt : List AttemptOutcome) (restAu : List AuthOutcome)
    (hm : st.isMounted = true) (hu : isUnauthorizedErr e = true)
    (h4 : is404 e.message = false) (h5 : is405 e.message = false)
    (hc : isLikelyCors e.message = false)
    (hatt : env.attemptResults = .connectError e :: restAtt)
    (hauth : env.authResults = .authorized :: restAu) :
    tryConnectWithTransport url restart t env st =
      (.failed,
       (restart { env with attemptResults := restAtt, authResults := restAu }
          (stAfterAuthorized t st)).1,
       (restart { env with attemptResults := restAtt, authResults := restAu }
          (stAfterAuthorized t st)).2.1,
       [Event.attempt t, Event.authCall] ++
         (restart { env with attemptResults := restAtt, authResults := restAu }
            (stAfterAuthorized t st)).2.2) := by
  by_cases hst : st.state = ConnectionState.authenticating <;>
    simp [tryConnectWithTransport, stAfterAuthorized, Env.takeAttempt, Env.takeAuth,
      hatt, hauth, hm, hu, h4, h5, hc, hst]

/-- Claim C2: when a transport attempt (on either transport) fails with an
unauthorized classification and the credential provider's authorization
routine returns authorized (no redirect), the whole `connect()` sequence is
restarted from the top: the attempt returns `failed` to its own cycle and the
restarted cycle's first transport attempt is HTTP — it never resumes
mid-fallback on the secondary transport. -/
theorem C2_authorized_restarts_primary (fuel : Nat) (url : String) (t : TransportType)
    (env : Env) (st : McpState) (e : JsError) (o2 : AttemptOutcome)
    (restA : List AttemptOutcome) (restAu : List AuthOutcome)
    (hm : st.isMounted = true) (hu : isUnauthorizedErr e = true)
    (h4 : is404 e.message = false) (h5 : is405 e.message = false)
    (hc : isLikelyCors e.message = false)
    (hatt : env.attemptResults = .connectError e :: o2 :: restA)
    (ho2 : o2.isCreateError = false)
    (hauth : env.authResults = .authorized :: restAu) :
    (tryConnectWithTransport url (connect (fuel + 1) url) t env st).1 = .failed ∧
    ∃ Δ, (tryConnectWithTransport url (connect (fuel + 1) url) t env st).2.2.2 =
      [Event.attempt t, Event.authCall, Event.attempt .http] ++ Δ := by
  have heq := tryConnect_authorized_eq url (connect (fuel + 1) url) t env st e
    (o2 :: restA) restAu hm hu h4 h5 hc hatt hauth
  have hcf2 : (stAfterAuthorized t st).connectingFlag = false := by
    simp [stAfterAuthorized]
  have hm2 : (stAfterAuthorized t st).isMounted = true := by
    by_cases hst : st.state = ConnectionState.authenticating <;>
      simp [stAfterAuthorized, hst, hm]
  obtain ⟨Δ0, h0⟩ := connect_events_proj
    { env with attemptResults := o2 :: restA, authResults := restAu }
    (stAfterAuthorized t st) o2 restA hcf2 hm2 (by simp) ho2
  constructor
  · rw [heq]
  · refine ⟨Δ0, ?_⟩
    rw [heq]
    show [Event.attempt t, Event.authCall] ++ _ = _
    rw [h0]
    rfl

/-- Claim C2 witness: an unauthorized HTTP attempt followed by an authorized
auth call on the concrete environment `envAuthRestart`; the restarted cycle
attempts HTTP first. -/
theorem C2_authorized_restarts_primary_witness :
    (tryConnectWithTransport "https://a.example/mcp"
        (connect 1 "https://a.example/mcp") .http envAuthRestart initialState).1 =
      .failed ∧
    ∃ Δ, (tryConnectWithTransport "https://a.example/mcp"
        (connect 1 "https://a.example/mcp") .http envAuthRestart initialState).2.2.2 =
      [Event.attempt .http, Event.authCall, Event.attempt .http] ++ Δ :=
  C2_authorized_restarts_primary 0 "https://a.example/mcp" .http envAuthRestart
    initialState errUnauthorized (.connected (some ["t"]) (some []) (some [])) [] []
    rfl (by decide) (by decide) (by decide) (by decide) rfl rfl rfl

/-! ## Claim C9: the re-authorization path of request operations -/

/-- Claim C9 (counterexample): the claim quantifies over every request
operation, but `listResources` has no re-authorization path — on an
unauthorized response while `ready` it rethrows the error (rejecting the
pending request) instead of resolving to an empty/undefined result, and makes
no auth call. -/
theorem C9_counterexample :
    (listResources none (.error errUnauthorized) readyState).1 =
      .error errUnauthorized ∧
    (listResources none (.error errUnauthorized) readyState).2.2 =
      [Event.request "resources/list"] := by
  constructor <;> rfl

/-- The authorized branch of `callTool`'s re-authentication in closed form:
the reconnect is exactly a fresh `connect()` invocation on the cleared state. -/
lemma callTool_authorized_eq (fuel : Nat) (url name : String) (err : JsError)
    (env : Env) (st : McpState) (restAu : List AuthOutcome)
    (hready : st.state = .ready) (hcl : st.hasClient = true)
    (hm : st.isMounted = true) (hu : isUnauthorizedErr err = true)
    (hauth : env.authResults = .authorized :: restAu) :
    callTool fuel url name (.error err) env st =
      ((if (connect fuel url { env with authResults := restAu }
            (stAfterToolAuthorized name err st)).2.1.state ≠ .authenticating then
          Except.error err
        else Except.ok none),
       (connect fuel url { env with authResults := restAu }
          (stAfterToolAuthorized name err st)).1,
       (connect fuel url { env with authResults := restAu }
          (stAfterToolAuthorized name err st)).2.1,
       [Event.request "tools/call", Event.authCall] ++
         (connect fuel url { env with authResults := restAu }
            (stAfterToolAuthorized name err st)).2.2) := by
  simp [callTool, stAfterToolAuthorized, Env.takeAuth, hauth, hready, hcl, hm, hu]
  split <;> simp_all

/-- Claim C9 (amended): only the tool-call operation has the re-authorization
path.  On an unauthorized response while `ready`, `callTool` enters
`authenticating` and invokes the auth routine: on redirect the pending call
resolves to undefined (no rejection, no reconnect); on authorized it triggers
a full reconnect whose first transport attempt is HTTP.  The list/read-resource
and list/get-prompt operations rethrow the unauthorized error unchanged and
never invoke the auth routine. -/
theorem C9_reauth_paths (fuel : Nat) (url name uri promptName : String)
    (cursor cursor2 : Option String) (err : JsError) (envR envA : Env) (st : McpState)
    (rR rA : List AuthOutcome) (o2 : AttemptOutcome) (restA : List AttemptOutcome)
    (hready : st.state = .ready) (hcl : st.hasClient = true) (hm : st.isMounted = true)
    (hu : isUnauthorizedErr err = true)
    (hR : envR.authResults = .redirect :: rR)
    (hA : envA.authResults = .authorized :: rA)
    (hA2 : envA.attemptResults = o2 :: restA) (ho2 : o2.isCreateError = false) :
    (callTool fuel url name (.error err) envR st).1 = .ok none ∧
    (callTool fuel url name (.error err) envR st).2.2.1.state = .authenticating ∧
    (callTool fuel url name (.error err) envR st).2.2.2 =
      [Event.request "tools/call", Event.authCall] ∧
    (∃ Δ, (callTool (fuel + 1) url name (.error err) envA st).2.2.2 =
      [Event.request "tools/call", Event.authCall, Event.attempt .http] ++ Δ) ∧
    (listResources cursor (.error err) st).1 = .error err ∧
    (readResource uri (.error err) st).1 = .error err ∧
    (listPrompts cursor2 (.error err) st).1 = .error err ∧
    (getPrompt promptName (.error err) st).1 = .error err := by
  refine ⟨?_, ?_, ?_, ?_, ?_, ?_, ?_, ?_⟩
  · simp [callTool, Env.takeAuth, hR, hready, hcl, hm, hu]
  · simp [callTool, Env.takeAuth, hR, hready, hcl, hm, hu]
  · simp [callTool, Env.takeAuth, hR, hready, hcl, hm, hu]
  · have heq := callTool_authorized_eq (fuel + 1) url name err envA st rA
      hready hcl hm hu hA
    have hcf2 : (stAfterToolAuthorized name err st).connectingFlag = false := by
      simp [stAfterToolAuthorized]
    have hm2 : (stAfterToolAuthorized name err st).isMounted = true := by
      simp [stAfterToolAuthorized, hm]
    obtain ⟨Δ0, h0⟩ := connect_events_proj
      { envA with authResults := rA } (stAfterToolAuthorized name err st)
      o2 restA hcf2 hm2 (by simp [hA2]) ho2
    refine ⟨Δ0, ?_⟩
    rw [heq]
    show [Event.request "tools/call", Event.authCall] ++ _ = _
    rw [h0]
    rfl
  · simp [listResources, hready, hcl]
  · simp [readResource, hready, hcl]
  · simp [listPrompts, hready, hcl]
  · simp [getPrompt, hready, hcl]

/-- Claim C9 witness: the three paths on the concrete ready state — redirect
via `envRedirect`, authorized via `envAuthRestart`, and the rethrowing list
operation. -/
theorem C9_reauth_paths_witness :
    (callTool 1 "https://a.example/mcp" "t" (.error errUnauthorized) envRedirect
        readyState).1 = .ok none ∧
    (callTool 1 "https://a.example/mcp" "t" (.error errUnauthorized) envRedirect
        readyState).2.2.1.state = .authenticating ∧
    (callTool 1 "https://a.example/mcp" "t" (.error errUnauthorized) envRedirect
        readyState).2.2.2 = [Event.request "tools/call", Event.authCall] ∧
    (∃ Δ, (callTool 2 "https://a.example/mcp" "t" (.error errUnauthorized) envAuthRestart
        readyState).2.2.2 =
      [Event.request "tools/call", Event.authCall, Event.attempt .http] ++ Δ) ∧
    (listResources none (.error errUnauthorized) readyState).1 = .error errUnauthorized ∧
    (readResource "u" (.error errUnauthorized) readyState).1 = .error errUnauthorized ∧
    (listPrompts none (.error errUnauthorized) readyState).1 = .error errUnauthorized ∧
    (getPrompt "p" (.error errUnauthorized) readyState).1 = .error errUnauthorized :=
  C9_reauth_paths 1 "https://a.example/mcp" "t" "u" "p" none none errUnauthorized
    envRedirect envAuthRestart readyState [] [] (.connectError errUnauthorized)
    [.connected (some ["t"]) (some []) (some [])] rfl rfl rfl (by decide) rfl rfl rfl
    (by decide)

end UseMcp
